import Mathlib

/-!
Verification of the AI_Guard multi-tenant LLM reverse proxy.

This file gives a shallow embedding, in Lean 4, of the parts of the
TypeScript source that the specification's claims talk about, and proves or
refutes each claim against that embedding.  Every definition is translated
from a named function of the source; external collaborators (node's
`crypto` AES-GCM cipher, `JSON.stringify`/`JSON.parse`, bcrypt) are kept as
explicit function parameters together with the round-trip facts the code
relies on, so that no external behaviour is baked into a definition.
-/

namespace AIGuard

/-! ## Scope checking (src/auth/pat/pat-scopes.ts, src/auth/auth-middleware.ts,
    TokenRepository in src/database/repositories) -/

/-- `ScopeValidator.hasScope` (pat-scopes.ts):
`userScopes.includes(requiredScope) || userScopes.includes(TokenScope.ADMIN)`. -/
def ScopeValidator.hasScope (userScopes : List String) (requiredScope : String) : Bool :=
  userScopes.contains requiredScope || userScopes.contains "admin"

/-- The scope test inside `AuthMiddleware.requireScope` (auth-middleware.ts line 139):
`token.scopes.includes(scope) || token.scopes.includes('admin')`. -/
def AuthMiddleware.requireScopeTest (tokenScopes : List String) (scope : String) : Bool :=
  tokenScopes.contains scope || tokenScopes.contains "admin"

/-- A stored personal access token as far as the repository's scope check reads it. -/
structure StoredToken where
  scopes : List String
  isRevoked : Bool
deriving Repr, DecidableEq

/-- `TokenRepository.hasScope` (project.repository.ts lines 436-443): looks the
token up by id, answers false when missing or revoked, else applies
`token.scopes.includes(scope) || token.scopes.includes('admin')`. -/
def TokenRepository.hasScope (findById : String → Option StoredToken)
    (tokenId : String) (scope : String) : Bool :=
  match findById tokenId with
  | none => false
  | some t =>
    if t.isRevoked then false
    else t.scopes.contains scope || t.scopes.contains "admin"

/-! ## Tier inference and quota limits
    (src/interceptors/request/quota-checker.ts, rate-limiter) -/

inductive Tier where
  | free
  | pro
  | enterprise
deriving Repr, DecidableEq

/-- Quota limits `{monthlyLimit, dailyLimit}` (quota-checker.ts). -/
structure QuotaLimits where
  monthlyLimit : Nat
  dailyLimit : Nat
deriving Repr, DecidableEq

/-- `QuotaChecker.defaultQuotas` (quota-checker.ts lines 22-26). -/
def QuotaChecker.defaultQuotas : Tier → QuotaLimits
  | Tier.free => ⟨1000, 100⟩
  | Tier.pro => ⟨50000, 5000⟩
  | Tier.enterprise => ⟨1000000, 50000⟩

/-- `QuotaChecker.determineProjectTier` (quota-checker.ts lines 128-141):
`memberCount > 10 ⇒ enterprise; memberCount > 2 ⇒ pro; else free`. -/
def QuotaChecker.determineProjectTier (memberCount : Nat) : Tier :=
  if memberCount > 10 then Tier.enterprise
  else if memberCount > 2 then Tier.pro
  else Tier.free

/-- A project member entry (project.model.ts): user id and role. -/
structure ProjectMember where
  userId : String
  role : String
deriving Repr, DecidableEq

/-- The slice of a stored project that quota and rate policy read. -/
structure ProjectPolicy where
  members : List ProjectMember
  quotaOverride : Option QuotaLimits
deriving Repr, DecidableEq

/-- `QuotaChecker.getQuotaLimits` (quota-checker.ts lines 114-123): project
quota override when present, else the tier default for
`determineProjectTier(project)` computed from `project.members.length`. -/
def QuotaChecker.getQuotaLimits (project : ProjectPolicy) : QuotaLimits :=
  match project.quotaOverride with
  | some q => q
  | none => QuotaChecker.defaultQuotas
      (QuotaChecker.determineProjectTier project.members.length)

/-- `RateLimiter.determineUserTier` (rate-limiter source lines 123-138): free
without a user; with a user, `project.members.length > 5 ⇒ enterprise`,
`> 1 ⇒ pro`, else free (also free when no project). -/
def RateLimiter.determineUserTier (hasUser : Bool)
    (projectMembers : Option Nat) : Tier :=
  if !hasUser then Tier.free
  else
    match projectMembers with
    | some n => if n > 5 then Tier.enterprise else if n > 1 then Tier.pro else Tier.free
    | none => Tier.free

/-! ## Personal access token codec (TokenValidator, token-validator source) -/

/-- Lowercase hex digit, the character class `[a-f0-9]` of `parseToken`. -/
def isLowerHexDigit (c : Char) : Bool :=
  (('a' ≤ c && c ≤ 'f') || ('0' ≤ c && c ≤ '9'))

/-- JavaScript's `.` (no `s` flag) matches any character except the four line
terminators; `parseToken`'s `(.+)` only spans characters satisfying this. -/
def isRegexDot (c : Char) : Bool :=
  !(c = '\n' || c = '\r' || c.val = 0x2028 || c.val = 0x2029)

/-- `TokenValidator.parseToken` (token-validator source lines 156-167) on the
character list of the token: the anchored JavaScript regex
`^(pat_[a-f0-9]{16})_(.+)$` — the literal `pat_`, exactly 16 lowercase hex
characters, an underscore, then a non-empty line-terminator-free remainder;
capture 1 is `pat_` plus the hex run, capture 2 the remainder. -/
def TokenValidator.parseTokenChars : List Char → Option (List Char × List Char)
  | 'p' :: 'a' :: 't' :: '_' :: rest =>
    let h := rest.take 16
    let r := rest.drop 16
    if h.length = 16 && h.all isLowerHexDigit then
      match r with
      | '_' :: s =>
        if s ≠ [] && s.all isRegexDot then
          some ('p' :: 'a' :: 't' :: '_' :: h, s)
        else none
      | _ => none
    else none
  | _ => none

/-- `TokenValidator.parseToken` at the string level. -/
def TokenValidator.parseToken (token : String) : Option (String × String) :=
  match TokenValidator.parseTokenChars token.data with
  | some (i, s) => some (⟨i⟩, ⟨s⟩)
  | none => none

/-- The format side of `TokenValidator.generateTokenString` (lines 142-154):
`fullToken = pat_<hexPart>_<secret>`, with the stored identifier being
`pat_<hexPart>`; here applied to a given hex part and secret. -/
def TokenValidator.formatToken (hexPart secret : List Char) :
    List Char × List Char × List Char :=
  ('p' :: 'a' :: 't' :: '_' :: hexPart ++ '_' :: secret,
   'p' :: 'a' :: 't' :: '_' :: hexPart,
   secret)

/-- URL-safe base64 alphabet of node's `base64url` encoding, the character
set of a generated secret. -/
def isUrlSafeB64 (c : Char) : Bool :=
  (('A' ≤ c && c ≤ 'Z') || ('a' ≤ c && c ≤ 'z') || ('0' ≤ c && c ≤ '9')
    || c = '-' || c = '_')

/-! ## Usage accounting
    (UsageTracker in the usage-tracker source, ProjectRepository.updateUsage) -/

/-- One usage bucket `{requests, tokens, cost}` (project.model.ts); cost is
kept as a rational, standing for the floating-point amount. -/
structure UsageBucket where
  requests : Nat
  tokens : Nat
  cost : ℚ
deriving Repr, DecidableEq

/-- The three aggregates `usage.total / currentMonth / currentDay`. -/
structure UsageMetrics where
  total : UsageBucket
  currentMonth : UsageBucket
  currentDay : UsageBucket
deriving Repr, DecidableEq

/-- The `{requests?, tokens?, cost?}` delta accepted by
`ProjectRepository.updateUsage`. -/
structure UsageDelta where
  requests : Option Nat
  tokens : Option Nat
  cost : Option ℚ
deriving Repr, DecidableEq

/-- Increment one bucket by the supplied deltas (the `$inc` entries built in
`ProjectRepository.updateUsage` lines 216-237 touch each of the three buckets
with the same amounts). -/
def incBucket (b : UsageBucket) (d : UsageDelta) : UsageBucket :=
  { requests := b.requests + (d.requests.getD 0)
    tokens := b.tokens + (d.tokens.getD 0)
    cost := b.cost + (d.cost.getD 0) }

/-- `ProjectRepository.updateUsage` (project.repository.ts lines 208-246) as
its effect on the stored usage document: every supplied field is `$inc`-ed
atomically on `total`, `currentMonth` and `currentDay` alike. -/
def ProjectRepository.updateUsage (u : UsageMetrics) (d : UsageDelta) : UsageMetrics :=
  { total := incBucket u.total d
    currentMonth := incBucket u.currentMonth d
    currentDay := incBucket u.currentDay d }

/-- `UsageTracker.updateProjectUsage` (usage-tracker source lines 161-171):
calls the repository with `requests: 1`, `tokens: totalTokens || 1`,
`cost: cost || 0`. -/
def UsageTracker.updateProjectUsage (u : UsageMetrics)
    (totalTokens : Option Nat) (cost : Option ℚ) : UsageMetrics :=
  ProjectRepository.updateUsage u
    { requests := some 1
      tokens := some (totalTokens.getD 1)
      cost := some (cost.getD 0) }

/-- The part of the request context that `UsageTracker.trackUsage` consults
before writing anything. -/
structure TrackContext where
  hasAuthUser : Bool
  provider : Option String
  tokenProjectId : Option String
  totalTokens : Option Nat
  cost : Option ℚ
deriving Repr, DecidableEq

/-- `UsageTracker.trackUsage` (lines 39-62) as its effect on the owning
project's usage aggregates: nothing without an authenticated user or without
the `X-AI-Guard-Provider` header, nothing without a token-scoped project id,
else one `updateProjectUsage` call. -/
def UsageTracker.trackUsageEffect (ctx : TrackContext) (u : UsageMetrics) : UsageMetrics :=
  if ctx.hasAuthUser && ctx.provider.isSome then
    match ctx.tokenProjectId with
    | some _ => UsageTracker.updateProjectUsage u ctx.totalTokens ctx.cost
    | none => u
  else u

/-- `UsageTracker.trackUsage`'s detailed-record write happens under the same
guard: it is skipped exactly when there is no authenticated user or no
provider header (lines 44-46). -/
def UsageTracker.writesUsageRecord (ctx : TrackContext) : Bool :=
  ctx.hasAuthUser && ctx.provider.isSome

/-! ## Provider registry (src/proxy/provider-config.ts) and upstream auth
    header selection (src/proxy/api-key-resolver.ts) -/

/-- JavaScript's `toLowerCase` restricted to ASCII, which covers every
header name and provider tag the source lowercases. -/
def jsCharToLower (c : Char) : Char :=
  if 'A' ≤ c && c ≤ 'Z' then Char.ofNat (c.toNat + 32) else c

/-- The `toLowerCase()` string method on an ASCII string. -/
def jsToLower (s : String) : String :=
  ⟨s.data.map jsCharToLower⟩

inductive ProviderName where
  | openai
  | anthropic
  | gemini
  | webUi
deriving Repr, DecidableEq

/-- The lowercased provider tag each `ProviderName` enum value stands for. -/
def ProviderName.tag : ProviderName → String
  | .openai => "openai"
  | .anthropic => "anthropic"
  | .gemini => "gemini"
  | .webUi => "web-ui"

/-- A provider registry entry (types/providers.ts / provider-config.ts);
`authPfx` is the optional auth value prelude (`authPrefix` in the source). -/
structure ProviderConfig where
  name : ProviderName
  host : String
  authHeader : String
  authPfx : Option String
  constantHeaders : List (String × String)
  constantQueryParams : List (String × String)
deriving Repr, DecidableEq

/-- `providerConfigs` (provider-config.ts lines 3-32). -/
def providerConfigs : ProviderName → ProviderConfig
  | .openai =>
    { name := .openai, host := "https://api.openai.com",
      authHeader := "Authorization", authPfx := some "Bearer",
      constantHeaders := [], constantQueryParams := [] }
  | .anthropic =>
    { name := .anthropic, host := "https://api.anthropic.com",
      authHeader := "x-api-key", authPfx := none,
      constantHeaders := [("anthropic-version", "2023-06-01")],
      constantQueryParams := [] }
  | .gemini =>
    { name := .gemini, host := "https://generativelanguage.googleapis.com",
      authHeader := "x-goog-api-key", authPfx := none,
      constantHeaders := [], constantQueryParams := [] }
  | .webUi =>
    { name := .webUi, host := "https://web-ui.com",
      authHeader := "authorization", authPfx := none,
      constantHeaders := [], constantQueryParams := [] }

/-- `getProviderConfig` (provider-config.ts lines 34-37): lowercased tag
lookup in the registry, `null` on unknown tags. -/
def getProviderConfig (providerName : String) : Option ProviderConfig :=
  let normalized := jsToLower providerName
  if normalized = "openai" then some (providerConfigs .openai)
  else if normalized = "anthropic" then some (providerConfigs .anthropic)
  else if normalized = "gemini" then some (providerConfigs .gemini)
  else if normalized = "web-ui" then some (providerConfigs .webUi)
  else none

/-- `ApiKeyResolver.getAuthorizationHeader` (api-key-resolver.ts lines
156-189): its own `authFormats` table — openai ⇒ `Authorization` with
`Bearer` prelude, anthropic ⇒ `X-API-Key`, gemini ⇒ `X-API-Key`, anything
else ⇒ `Authorization: Bearer <key>`.  Note this table, not
`providerConfigs`, is what the forwarder consults. -/
def ApiKeyResolver.getAuthorizationHeader (provider : String) (apiKey : String) :
    String × String :=
  let p := jsToLower provider
  if p = "openai" then ("Authorization", "Bearer " ++ apiKey)
  else if p = "anthropic" then ("X-API-Key", apiKey)
  else if p = "gemini" then ("X-API-Key", apiKey)
  else ("Authorization", "Bearer " ++ apiKey)

/-! ## Outbound header composition (ProxyHandler.handleRequest, proxy-handler
    source lines 323-359) -/

/-- A JavaScript string-keyed header object, as an association list whose
keys are unique; `ctx.headers` arrives with lowercased keys but none of the
definitions below rely on that. -/
abbrev Headers := List (String × String)

/-- Value of a key in a header object (exact-key lookup, as `headers[key]`). -/
def getHeader (hs : Headers) (k : String) : Option String :=
  (hs.find? (fun p => p.1 = k)).map Prod.snd

/-- JavaScript truthiness of `headers[key]`: present with a non-empty value. -/
def jsHasHeader (hs : Headers) (k : String) : Bool :=
  match getHeader hs k with
  | some v => v ≠ ""
  | none => false

/-- `headers[k] = v` on a JavaScript object: overwrite or append. -/
def setHeader (hs : Headers) (k v : String) : Headers :=
  if hs.any (fun p => p.1 = k) then
    hs.map (fun p => if p.1 = k then (k, v) else p)
  else hs ++ [(k, v)]

/-- The fixed block dropped from inbound headers (lines 325-336). -/
def headersToSkip : List String :=
  ["host", "x-ai-guard-provider", "authorization", "connection",
   "content-length", "user-agent", "accept-encoding", "postman-token",
   "cache-control", "pragma"]

/-- Step 1 of header composition (lines 338-342): keep an inbound header iff
its value is truthy and its lowercased name is not in the skip block. -/
def ProxyHandler.filterHeaders (inbound : Headers) : Headers :=
  inbound.filter (fun p => p.2 ≠ "" && !(headersToSkip.contains (jsToLower p.1)))

/-- Step 2 (lines 344-352): add each registry constant header only when
neither the key itself nor its lowercased form is already present. -/
def ProxyHandler.addConstantHeaders (hs : Headers) (constants : List (String × String)) :
    Headers :=
  constants.foldl
    (fun acc kv =>
      if !(jsHasHeader acc kv.1) && !(jsHasHeader acc (jsToLower kv.1)) then
        acc ++ [kv]
      else acc)
    hs

/-- `new URL(host).host` for the registry hosts, which are all of the plain
shape `https://<hostname>` with no port or path: drop the scheme. -/
def urlHost (u : String) : String := u.drop 8

/-- Steps 1-4 of the outbound header composition in
`ProxyHandler.handleRequest` (lines 323-359): filter the inbound headers,
add registry constants where absent, set the auth header chosen by
`ApiKeyResolver.getAuthorizationHeader(providerConfig.name, apiKey)`, and
set `host` to the upstream origin's host. -/
def ProxyHandler.buildUpstreamHeaders (inbound : Headers) (cfg : ProviderConfig)
    (apiKey : String) : Headers :=
  let hs := ProxyHandler.filterHeaders inbound
  let hs := ProxyHandler.addConstantHeaders hs cfg.constantHeaders
  let ah := ApiKeyResolver.getAuthorizationHeader cfg.name.tag apiKey
  let hs := setHeader hs ah.1 ah.2
  setHeader hs "host" (urlHost cfg.host)

/-! ## Credential resolution (src/proxy/api-key-resolver.ts lines 17-136) -/

/-- An embedded provider credential entry (project.model.ts). -/
structure ApiKeyEntry where
  provider : String
  encryptedKey : String
  keyId : String
  isActive : Bool
deriving Repr, DecidableEq

/-- The slice of a stored project that credential resolution reads. -/
structure ProjectKeys where
  id : String
  apiKeys : List ApiKeyEntry
  allowedProviders : Option (List String)
deriving Repr, DecidableEq

inductive KeySource where
  | project
  | user
  | system
deriving Repr, DecidableEq

/-- `ApiKeyResolutionResult` (api-key-resolver.ts lines 7-11). -/
structure ApiKeyResolutionResult where
  apiKey : String
  source : KeySource
  keyId : Option String
deriving Repr, DecidableEq

/-- `ApiKeyResolver.getProjectApiKey` (lines 79-110), with the
`KeyManager.decryptApiKey` call abstracted as `decryptK` (`none` models the
caught decryption exception): find the first active credential entry for the
provider; on decryption failure log and return `null`. -/
def ApiKeyResolver.getProjectApiKey (decryptK : String → Option String)
    (project : ProjectKeys) (provider : String) : Option ApiKeyResolutionResult :=
  match project.apiKeys.find? (fun k => k.provider = provider && k.isActive) with
  | none => none
  | some entry =>
    match decryptK entry.encryptedKey with
    | some decryptedKey => some ⟨decryptedKey, KeySource.project, some entry.keyId⟩
    | none => none

/-- The `envKeyMap` of `ApiKeyResolver.getSystemApiKey` (lines 115-136). -/
def envKeyVar (provider : String) : Option String :=
  let p := jsToLower provider
  if p = "openai" then some "OPENAI_API_KEY"
  else if p = "anthropic" then some "ANTHROPIC_API_KEY"
  else if p = "gemini" then some "GEMINI_API_KEY"
  else none

/-- `ApiKeyResolver.getSystemApiKey`: the process-default credential from
the environment; JavaScript falsiness makes an empty value count as unset. -/
def ApiKeyResolver.getSystemApiKey (env : String → Option String)
    (provider : String) : Option ApiKeyResolutionResult :=
  match envKeyVar provider with
  | none => none
  | some envVar =>
    match env envVar with
    | some apiKey => if apiKey ≠ "" then some ⟨apiKey, KeySource.system, none⟩ else none
    | none => none

/-- The caller as credential resolution sees it (user.model.ts slice). -/
structure UserInfo where
  id : String
  defaultProject : Option String
deriving Repr, DecidableEq

/-- `ApiKeyResolver.resolveApiKey` (lines 17-74): project credential first,
then the user's default project (looked up through `findProject`, modelling
`projectRepository.findById`), then the environment default; `none` when all
tiers fail. -/
def ApiKeyResolver.resolveApiKey (decryptK : String → Option String)
    (env : String → Option String) (findProject : String → Option ProjectKeys)
    (user : Option UserInfo) (project : Option ProjectKeys) (provider : String) :
    Option ApiKeyResolutionResult :=
  let step1 :=
    match project with
    | some p => ApiKeyResolver.getProjectApiKey decryptK p provider
    | none => none
  match step1 with
  | some r => some r
  | none =>
    let step2 :=
      match user with
      | some u =>
        match u.defaultProject with
        | some pid =>
          match findProject pid with
          | some dp => ApiKeyResolver.getProjectApiKey decryptK dp provider
          | none => none
        | none => none
      | none => none
    match step2 with
    | some r => some r
    | none => ApiKeyResolver.getSystemApiKey env provider

/-! ## Master-key handling and key rotation (EncryptionService, encryption
    source lines 23-45 and 167-186) -/

/-- `EncryptionService.getMasterKey`'s normalisation of the ambient key
string (lines 30-45): shorter than 32 bytes ⇒ PBKDF2 derivation (the
external `crypto.pbkdf2Sync`, abstracted as `deriveKey`), else the first 32
bytes.  Keys are taken as ASCII so byte length equals character count. -/
def masterKeyFrom (deriveKey : String → String) (k : String) : String :=
  if k.length < 32 then deriveKey k else k.take 32

/-- The observable ambient process state: `process.env.ENCRYPTION_KEY`. -/
structure ProcessEnv where
  encryptionKey : Option String
deriving Repr, DecidableEq

/-- A completed `EncryptionService.rotateEncryption` call (lines 167-186),
recording each value the ambient `process.env.ENCRYPTION_KEY` variable holds
while the call runs: the source assigns it `oldKey.toString('utf8')` before
decrypting, `newKey.toString('utf8')` before re-encrypting, and restores
`originalKey.toString('utf8')` — the *normalised* master, not the original
environment string — in the `finally` block. -/
structure RotationRun where
  result : String
  envDuringDecrypt : ProcessEnv
  envDuringEncrypt : ProcessEnv
  envAfter : ProcessEnv
deriving Repr, DecidableEq

/-- `EncryptionService.rotateEncryption` (lines 167-186) with the cipher
calls abstracted (`decryptWith`/`encryptWith` take the normalised master key
and the data); `none` models the initial `getMasterKey` throw when no key is
configured.  The run records the ambient-state trajectory. -/
def EncryptionService.rotateEncryption (deriveKey : String → String)
    (decryptWith encryptWith : String → String → String)
    (env0 : ProcessEnv) (encryptedData oldKey newKey : String) : Option RotationRun :=
  match env0.encryptionKey with
  | none => none
  | some envKey =>
    let originalKey := masterKeyFrom deriveKey envKey
    let env1 : ProcessEnv := ⟨some oldKey⟩
    let decrypted := decryptWith (masterKeyFrom deriveKey oldKey) encryptedData
    let env2 : ProcessEnv := ⟨some newKey⟩
    let result := encryptWith (masterKeyFrom deriveKey newKey) decrypted
    some { result := result
           envDuringDecrypt := env1
           envDuringEncrypt := env2
           envAfter := ⟨some originalKey⟩ }

/-! ## Credential envelope encryption (EncryptionService, encryption source
    lines 50-155) -/

/-- The external AES-256-GCM cipher (node's `crypto.createCipheriv` /
`createDecipheriv`): `enc key iv plaintext = (ciphertext, tag)`; `dec key iv
tag ciphertext` yields the plaintext or fails on tag mismatch. -/
structure Gcm where
  enc : List Nat → List Nat → String → List Nat × List Nat
  dec : List Nat → List Nat → List Nat → List Nat → Option String

/-- `EncryptionService.encrypt` (lines 50-78) at the byte level: the
envelope is `IV(16) || TAG(16) || CIPHERTEXT` (the base64 transport encoding
of node's `Buffer` is an external bijection and is left off). -/
def EncryptionService.encrypt (g : Gcm) (masterKey iv : List Nat)
    (plaintext : String) : List Nat :=
  let e := g.enc masterKey iv plaintext
  iv ++ e.2 ++ e.1

/-- `EncryptionService.decrypt` (lines 83-110): slice the envelope at the
fixed `ivLength = 16` and `tagLength = 16` offsets and decipher; `none`
models the thrown `Failed to decrypt data`. -/
def EncryptionService.decrypt (g : Gcm) (masterKey : List Nat)
    (combined : List Nat) : Option String :=
  let iv := combined.take 16
  let tag := (combined.drop 16).take 16
  let encrypted := (combined.drop 16).drop 16
  g.dec masterKey iv tag encrypted

/-- The plaintext JSON document `{key, keyId, metadata, encryptedAt}` built
by `encryptApiKey` (lines 122-127); metadata is a string-valued record. -/
structure ApiKeyPayload where
  key : String
  keyId : String
  metadata : Option (List (String × String))
  encryptedAt : String
deriving Repr, DecidableEq

/-- The `dataToEncrypt` object literal of `encryptApiKey` (lines 122-127):
`{key: apiKey, keyId, metadata, encryptedAt}`. -/
def mkApiKeyPayload (apiKey keyId : String)
    (metadata : Option (List (String × String))) (now : String) : ApiKeyPayload :=
  { key := apiKey, keyId := keyId, metadata := metadata, encryptedAt := now }

/-- `EncryptionService.encryptApiKey` (lines 115-135): seal the JSON
serialisation (`stringify`, the external `JSON.stringify`) of the payload
built from the api key, the freshly drawn `keyId`, the metadata and the
timestamp; returns the envelope together with the `keyId`. -/
def EncryptionService.encryptApiKey (g : Gcm) (stringify : ApiKeyPayload → String)
    (masterKey iv : List Nat) (keyId : String) (apiKey : String)
    (metadata : Option (List (String × String))) (now : String) :
    List Nat × String :=
  (EncryptionService.encrypt g masterKey iv
    (stringify (mkApiKeyPayload apiKey keyId metadata now)),
   keyId)

/-- `EncryptionService.decryptApiKey` (lines 140-155): decrypt the envelope,
`JSON.parse` it (the external `parse`; `none` models the parse throw) and
return the payload fields. -/
def EncryptionService.decryptApiKey (g : Gcm) (parse : String → Option ApiKeyPayload)
    (masterKey : List Nat) (envelope : List Nat) : Option ApiKeyPayload :=
  (EncryptionService.decrypt g masterKey envelope).bind parse

/-! ## The proxy middleware chain (src/server/index.ts lines 149-166,
    ProxyHandler.handleRequest, middleware/error-handler.ts) -/

/-- An error thrown by a pipeline stage: the service's own `ProxyError`
carries a type and a status; anything else (such as Koa's `ctx.throw`
`HttpError` out of `AuthMiddleware.requireAuth`) does not. -/
inductive StageError where
  | proxyErr (errType : String) (status : Nat)
  | httpErr (status : Nat)
deriving Repr, DecidableEq

/-- `errorHandler` (middleware/error-handler.ts): a `ProxyError` keeps its
status and type in the envelope; every other thrown error is answered `500`
with type `UPSTREAM_ERROR`. -/
def errorHandlerEnvelope : StageError → Nat × Option String
  | .proxyErr t s => (s, some t)
  | .httpErr _ => (500, some "UPSTREAM_ERROR")

/-- The per-request facts deciding each middleware stage of the proxy route
(server/index.ts lines 149-166): whether `validateToken` succeeds, whether
the two request-validator passes accept the body, whether the rate limiter
and the quota admitter deny, the `X-AI-Guard-Provider` header, and the
token's project binding read by the usage tracker. -/
structure PipelineRequest where
  authOk : Bool
  securityOk : Bool
  schemaOk : Bool
  rateExceeded : Bool
  quotaExceeded : Bool
  provider : Option String
  tokenProjectId : Option String
deriving Repr, DecidableEq

/-- What the caller observes of one proxy request, plus whether any upstream
call was made and whether a usage record was written. -/
structure PipelineOutcome where
  status : Nat
  errorType : Option String
  upstreamCalled : Bool
  usageRecorded : Bool
deriving Repr, DecidableEq

/-- The proxy route middleware chain (server/index.ts lines 149-166) run on
one request: `requireAuth` (its `ctx.throw(401)` reaches the error handler
as a non-`ProxyError`), the security and schema validators (both reject
with `ProxyError INVALID_REQUEST 400`), the rate limiter (answers `429`
itself), the quota admitter (`ProxyError INVALID_REQUEST 429`), then the
usage-tracker-wrapped `ProxyHandler.handleRequest`, whose own provider
check rejects with `400 INVALID_REQUEST` before any upstream work; the
forwarding tail beyond the provider check is the `forwardRest` parameter
(status, error type, whether an upstream call was made). -/
def runProxyChain (forwardRest : String → Nat × Option String × Bool)
    (req : PipelineRequest) : PipelineOutcome :=
  if !req.authOk then
    let e := errorHandlerEnvelope (.httpErr 401)
    ⟨e.1, e.2, false, false⟩
  else if !req.securityOk then
    let e := errorHandlerEnvelope (.proxyErr "INVALID_REQUEST" 400)
    ⟨e.1, e.2, false, false⟩
  else if !req.schemaOk then
    let e := errorHandlerEnvelope (.proxyErr "INVALID_REQUEST" 400)
    ⟨e.1, e.2, false, false⟩
  else if req.rateExceeded then
    ⟨429, some "RATE_LIMIT_EXCEEDED", false, false⟩
  else if req.quotaExceeded then
    let e := errorHandlerEnvelope (.proxyErr "INVALID_REQUEST" 429)
    ⟨e.1, e.2, false, false⟩
  else
    let handled :=
      match req.provider with
      | none => (400, some "INVALID_REQUEST", false)
      | some p => forwardRest p
    let usageWritten := UsageTracker.writesUsageRecord
      { hasAuthUser := true, provider := req.provider,
        tokenProjectId := req.tokenProjectId, totalTokens := none, cost := none }
    ⟨handled.1, handled.2.1, handled.2.2, usageWritten⟩

/-! ## Theorems -/

/-- C10: a Personal Access Token whose scope set contains `admin` satisfies
every required scope, and the admin-implies-all rule is applied uniformly by
`ScopeValidator.hasScope`, the `requireScope` middleware test, and
`TokenRepository.hasScope` (on a found, unrevoked token). -/
theorem admin_scope_satisfies_all (scopes : List String) (s : String)
    (findById : String → Option StoredToken) (tokenId : String) (t : StoredToken)
    (hadmin : "admin" ∈ scopes)
    (hfind : findById tokenId = some t)
    (hscopes : t.scopes = scopes)
    (hrev : t.isRevoked = false) :
    ScopeValidator.hasScope scopes s = true ∧
    AuthMiddleware.requireScopeTest scopes s = true ∧
    TokenRepository.hasScope findById tokenId s = true := by
  have hc : scopes.contains "admin" = true := by
    simpa [List.contains] using hadmin
  refine ⟨?_, ?_, ?_⟩
  · simp [ScopeValidator.hasScope, hc]
    exact Or.inr hadmin
  · simp [AuthMiddleware.requireScopeTest, hc]
    exact Or.inr hadmin
  · simp [TokenRepository.hasScope, hfind, hrev, hscopes, hc]
    exact Or.inr hadmin

/-- Witness for C10 at a concrete admin token. -/
theorem admin_scope_satisfies_all_witness :
    ScopeValidator.hasScope ["admin"] "api:write" = true ∧
    AuthMiddleware.requireScopeTest ["admin"] "api:write" = true ∧
    TokenRepository.hasScope (fun _ => some ⟨["admin"], false⟩) "tok1" "api:write" = true :=
  admin_scope_satisfies_all ["admin"] "api:write" (fun _ => some ⟨["admin"], false⟩)
    "tok1" ⟨["admin"], false⟩ (by decide) rfl rfl rfl

/-- C2 counterexample: a two-member project with no quota override.  The
claim's tier rule (2..5 members ⇒ pro, as the rate limiter infers) predicts
the pro defaults 5 000/day and 50 000/month, but `QuotaChecker` classifies
two members as free and admits against 100/day and 1 000/month; the two
components genuinely use different member-count thresholds. -/
theorem quota_tier_differs_from_rate_tier :
    QuotaChecker.getQuotaLimits ⟨[⟨"u1", "owner"⟩, ⟨"u2", "member"⟩], none⟩ =
      ⟨1000, 100⟩ ∧
    QuotaChecker.getQuotaLimits ⟨[⟨"u1", "owner"⟩, ⟨"u2", "member"⟩], none⟩ ≠
      QuotaChecker.defaultQuotas Tier.pro ∧
    RateLimiter.determineUserTier true (some 2) = Tier.pro ∧
    QuotaChecker.determineProjectTier 2 = Tier.free := by
  decide

/-- C2 as amended: with no quota override the admission limits are the tier
defaults, but for the quota checker's own member-count rule — at most 2
members ⇒ free (100/day, 1 000/month), 3..10 ⇒ pro (5 000/day,
50 000/month), more than 10 ⇒ enterprise (50 000/day, 1 000 000/month) —
which differs from the rate limiter's thresholds. -/
theorem quota_limits_from_member_count (p : ProjectPolicy)
    (hov : p.quotaOverride = none) :
    QuotaChecker.getQuotaLimits p =
      QuotaChecker.defaultQuotas (QuotaChecker.determineProjectTier p.members.length) ∧
    (p.members.length ≤ 2 → QuotaChecker.getQuotaLimits p = ⟨1000, 100⟩) ∧
    (2 < p.members.length → p.members.length ≤ 10 →
      QuotaChecker.getQuotaLimits p = ⟨50000, 5000⟩) ∧
    (10 < p.members.length → QuotaChecker.getQuotaLimits p = ⟨1000000, 50000⟩) := by
  have hbase : QuotaChecker.getQuotaLimits p =
      QuotaChecker.defaultQuotas (QuotaChecker.determineProjectTier p.members.length) := by
    simp [QuotaChecker.getQuotaLimits, hov]
  refine ⟨hbase, ?_, ?_, ?_⟩
  · intro h
    rw [hbase]
    have : QuotaChecker.determineProjectTier p.members.length = Tier.free := by
      unfold QuotaChecker.determineProjectTier
      rw [if_neg (by omega), if_neg (by omega)]
    rw [this]; rfl
  · intro h1 h2
    rw [hbase]
    have : QuotaChecker.determineProjectTier p.members.length = Tier.pro := by
      unfold QuotaChecker.determineProjectTier
      rw [if_neg (by omega), if_pos (by omega)]
    rw [this]; rfl
  · intro h
    rw [hbase]
    have : QuotaChecker.determineProjectTier p.members.length = Tier.enterprise := by
      unfold QuotaChecker.determineProjectTier
      rw [if_pos (by omega)]
    rw [this]; rfl

/-- Witness for the amended C2 at a concrete one-member project. -/
theorem quota_limits_from_member_count_witness :
    QuotaChecker.getQuotaLimits ⟨[⟨"u1", "owner"⟩], none⟩ =
      QuotaChecker.defaultQuotas
        (QuotaChecker.determineProjectTier
          ([⟨"u1", "owner"⟩] : List ProjectMember).length) ∧
    (([⟨"u1", "owner"⟩] : List ProjectMember).length ≤ 2 →
      QuotaChecker.getQuotaLimits ⟨[⟨"u1", "owner"⟩], none⟩ = ⟨1000, 100⟩) ∧
    (2 < ([⟨"u1", "owner"⟩] : List ProjectMember).length →
      ([⟨"u1", "owner"⟩] : List ProjectMember).length ≤ 10 →
      QuotaChecker.getQuotaLimits ⟨[⟨"u1", "owner"⟩], none⟩ = ⟨50000, 5000⟩) ∧
    (10 < ([⟨"u1", "owner"⟩] : List ProjectMember).length →
      QuotaChecker.getQuotaLimits ⟨[⟨"u1", "owner"⟩], none⟩ = ⟨1000000, 50000⟩) :=
  quota_limits_from_member_count ⟨[⟨"u1", "owner"⟩], none⟩ rfl

/-- C1: whenever the usage tracker records a successfully forwarded request
(authenticated user, provider header present, token bound to a project),
the owning project's `currentDay.requests` and `currentMonth.requests`
counters each grow by exactly one. -/
theorem track_usage_increments_by_one (ctx : TrackContext) (u : UsageMetrics)
    (huser : ctx.hasAuthUser = true)
    (hprov : ctx.provider.isSome = true)
    (hproj : ctx.tokenProjectId.isSome = true) :
    (UsageTracker.trackUsageEffect ctx u).currentDay.requests =
      u.currentDay.requests + 1 ∧
    (UsageTracker.trackUsageEffect ctx u).currentMonth.requests =
      u.currentMonth.requests + 1 := by
  obtain ⟨pid, hpid⟩ := Option.isSome_iff_exists.mp hproj
  simp [UsageTracker.trackUsageEffect, huser, hprov, hpid,
    UsageTracker.updateProjectUsage, ProjectRepository.updateUsage, incBucket]

/-- Witness for C1 at a concrete tracking context. -/
theorem track_usage_increments_by_one_witness :
    (UsageTracker.trackUsageEffect
        ⟨true, some "anthropic", some "p1", some 42, some 0⟩
        ⟨⟨5, 7, 0⟩, ⟨3, 4, 0⟩, ⟨1, 2, 0⟩⟩).currentDay.requests =
      (⟨⟨5, 7, 0⟩, ⟨3, 4, 0⟩, ⟨1, 2, 0⟩⟩ : UsageMetrics).currentDay.requests + 1 ∧
    (UsageTracker.trackUsageEffect
        ⟨true, some "anthropic", some "p1", some 42, some 0⟩
        ⟨⟨5, 7, 0⟩, ⟨3, 4, 0⟩, ⟨1, 2, 0⟩⟩).currentMonth.requests =
      (⟨⟨5, 7, 0⟩, ⟨3, 4, 0⟩, ⟨1, 2, 0⟩⟩ : UsageMetrics).currentMonth.requests + 1 :=
  track_usage_increments_by_one
    ⟨true, some "anthropic", some "p1", some 42, some 0⟩
    ⟨⟨5, 7, 0⟩, ⟨3, 4, 0⟩, ⟨1, 2, 0⟩⟩ rfl rfl rfl

set_option maxRecDepth 8192 in
/-- C3: evaluated run of `rotateEncryption` showing the ambient
`process.env.ENCRYPTION_KEY` variable holds the old master while decrypting
and the new master while re-encrypting — both keys are published
process-wide during the call — and that with a 33-character original key the
`finally` block restores the *truncated* master, so the observable process
state also differs after the call. -/
theorem rotate_encryption_publishes_masters :
    EncryptionService.rotateEncryption (fun k => k) (fun _ d => d) (fun _ d => d)
        ⟨some "0123456789abcdef0123456789abcdefX"⟩ "sealed-envelope"
        "OLD-MASTER-OLD-MASTER-OLD-MASTER" "NEW-MASTER-NEW-MASTER-NEW-MASTER" =
      some { result := "sealed-envelope"
             envDuringDecrypt := ⟨some "OLD-MASTER-OLD-MASTER-OLD-MASTER"⟩
             envDuringEncrypt := ⟨some "NEW-MASTER-NEW-MASTER-NEW-MASTER"⟩
             envAfter := ⟨some "0123456789abcdef0123456789abcdef"⟩ } ∧
    (⟨some "0123456789abcdef0123456789abcdef"⟩ : ProcessEnv) ≠
      ⟨some "0123456789abcdef0123456789abcdefX"⟩ := by
  constructor
  · rfl
  · intro h
    simp only [ProcessEnv.mk.injEq, Option.some.injEq] at h
    exact absurd (congrArg String.length h) (by decide)

/-- Anything in the result of a JavaScript-object assignment is either the
assigned pair or was already present. -/
theorem mem_setHeader {hs : Headers} {k v : String} {p : String × String}
    (hp : p ∈ setHeader hs k v) : p = (k, v) ∨ p ∈ hs := by
  unfold setHeader at hp
  split at hp
  · rw [List.mem_map] at hp
    obtain ⟨q, hq, he⟩ := hp
    by_cases hqk : q.1 = k
    · left
      rw [← he]
      simp [hqk]
    · right
      rw [← he]
      simp only [if_neg hqk]
      exact hq
  · rw [List.mem_append] at hp
    rcases hp with hp | hp
    · right
      exact hp
    · left
      simpa using hp

/-- Anything surviving `addConstantHeaders` came from the existing headers
or from the constants list. -/
theorem mem_addConstantHeaders {cs : List (String × String)} {hs : Headers}
    {p : String × String} (hp : p ∈ ProxyHandler.addConstantHeaders hs cs) :
    p ∈ hs ∨ p ∈ cs := by
  induction cs generalizing hs with
  | nil => exact Or.inl hp
  | cons c cs ih =>
    have hp' : p ∈ ProxyHandler.addConstantHeaders
        (if !(jsHasHeader hs c.1) && !(jsHasHeader hs (jsToLower c.1))
         then hs ++ [c] else hs) cs := hp
    rcases ih hp' with hmem | hmem
    · split at hmem
      · rw [List.mem_append] at hmem
        rcases hmem with hmem | hmem
        · exact Or.inl hmem
        · exact Or.inr (by simpa using Or.inl (List.mem_singleton.mp hmem))
      · exact Or.inl hmem
    · exact Or.inr (List.mem_cons_of_mem c hmem)

/-- Every header surviving the filter step has a name outside the skip
block (case-insensitively). -/
theorem mem_filterHeaders {inbound : Headers} {p : String × String}
    (hp : p ∈ ProxyHandler.filterHeaders inbound) :
    headersToSkip.contains (jsToLower p.1) = false := by
  unfold ProxyHandler.filterHeaders at hp
  rw [List.mem_filter] at hp
  have h2 := hp.2
  rw [Bool.and_eq_true, Bool.not_eq_true'] at h2
  exact h2.2

/-- C5 counterexample: an openai request.  The inbound caller credential and
provider-selection headers are stripped, but the forwarder then *sets* an
`Authorization` header carrying the resolved upstream credential, so the
outbound header set does contain `Authorization`. -/
theorem outbound_openai_contains_authorization :
    ProxyHandler.buildUpstreamHeaders
        [("authorization", "Bearer pat_caller_token"),
         ("x-ai-guard-provider", "openai"),
         ("accept", "application/json")]
        (providerConfigs .openai) "sk-upstream" =
      [("accept", "application/json"),
       ("Authorization", "Bearer sk-upstream"),
       ("host", "api.openai.com")] ∧
    (ProxyHandler.buildUpstreamHeaders
        [("authorization", "Bearer pat_caller_token"),
         ("x-ai-guard-provider", "openai"),
         ("accept", "application/json")]
        (providerConfigs .openai) "sk-upstream").any
      (fun p => jsToLower p.1 = "authorization") = true := by
  constructor
  · rfl
  · rfl

/-- C5 as amended: for every inbound header set, registry provider and
resolved credential, the outbound header set never contains
`X-AI-Guard-Provider` in any casing, and any header named `Authorization`
(case-insensitively) is exactly the freshly set upstream auth header chosen
by `getAuthorizationHeader` — the caller's `Authorization` value is never
forwarded. -/
theorem outbound_headers_stripped (inbound : Headers) (n : ProviderName)
    (apiKey : String) (p : String × String)
    (hp : p ∈ ProxyHandler.buildUpstreamHeaders inbound (providerConfigs n) apiKey) :
    jsToLower p.1 ≠ "x-ai-guard-provider" ∧
    (jsToLower p.1 = "authorization" →
      p = ApiKeyResolver.getAuthorizationHeader (providerConfigs n).name.tag apiKey) := by
  unfold ProxyHandler.buildUpstreamHeaders at hp
  rcases mem_setHeader hp with hhost | hp1
  · rw [hhost]
    cases n <;> exact ⟨by decide, fun h => absurd h (by decide)⟩
  rcases mem_setHeader hp1 with hauth | hp2
  · rw [hauth, Prod.mk.eta]
    refine ⟨?_, fun _ => rfl⟩
    cases n
    case openai =>
      have h1 : (ApiKeyResolver.getAuthorizationHeader
          (providerConfigs ProviderName.openai).name.tag apiKey).1 = "Authorization" := rfl
      rw [h1]
      decide
    case anthropic =>
      have h1 : (ApiKeyResolver.getAuthorizationHeader
          (providerConfigs ProviderName.anthropic).name.tag apiKey).1 = "X-API-Key" := rfl
      rw [h1]
      decide
    case gemini =>
      have h1 : (ApiKeyResolver.getAuthorizationHeader
          (providerConfigs ProviderName.gemini).name.tag apiKey).1 = "X-API-Key" := rfl
      rw [h1]
      decide
    case webUi =>
      have h1 : (ApiKeyResolver.getAuthorizationHeader
          (providerConfigs ProviderName.webUi).name.tag apiKey).1 = "Authorization" := rfl
      rw [h1]
      decide
  rcases mem_addConstantHeaders hp2 with hp3 | hconst
  · have hskip := mem_filterHeaders hp3
    constructor
    · intro h
      rw [h] at hskip
      exact absurd hskip (by decide)
    · intro h
      rw [h] at hskip
      exact absurd hskip (by decide)
  · cases n <;> simp only [providerConfigs] at hconst
    case anthropic =>
      have hpv : p = ("anthropic-version", "2023-06-01") := by simpa using hconst
      rw [hpv]
      exact ⟨by decide, fun h => absurd h (by decide)⟩
    all_goals simp at hconst

/-- Witness for the amended C5 at a concrete anthropic request header. -/
theorem outbound_headers_stripped_witness :
    jsToLower (("content-type", "application/json") : String × String).1 ≠
      "x-ai-guard-provider" ∧
    (jsToLower (("content-type", "application/json") : String × String).1 =
        "authorization" →
      (("content-type", "application/json") : String × String) =
        ApiKeyResolver.getAuthorizationHeader
          (providerConfigs .anthropic).name.tag "sk-ant") :=
  outbound_headers_stripped [("content-type", "application/json")] .anthropic "sk-ant"
    ("content-type", "application/json") (by decide)

/-- C6: on a gemini request the forwarder consults
`getAuthorizationHeader`'s own table and emits `X-API-Key`, while the
repository's provider registry (and its unit test
`should use correct auth header for each provider`) declare the gemini auth
header to be `x-goog-api-key`; the outbound request carries `X-API-Key` with
the bare credential and no `x-goog-api-key` header at all. -/
theorem gemini_forwarder_header_mismatch :
    ApiKeyResolver.getAuthorizationHeader "gemini" "g-key" = ("X-API-Key", "g-key") ∧
    (providerConfigs .gemini).authHeader = "x-goog-api-key" ∧
    ProxyHandler.buildUpstreamHeaders [("accept", "application/json")]
        (providerConfigs .gemini) "g-key" =
      [("accept", "application/json"), ("X-API-Key", "g-key"),
       ("host", "generativelanguage.googleapis.com")] ∧
    (ProxyHandler.buildUpstreamHeaders [("accept", "application/json")]
        (providerConfigs .gemini) "g-key").any
      (fun p => jsToLower p.1 = "x-goog-api-key") = false := by
  exact ⟨rfl, rfl, rfl, rfl⟩

/-- C4 counterexample: a project whose only matching active openai
credential fails to decrypt, while the process environment supplies a
default openai key.  Resolution does not fail — it silently serves the
system key — so a decryption error does not fail closed. -/
theorem decrypt_failure_serves_system_key :
    ApiKeyResolver.resolveApiKey (fun _ => none)
        (fun v => if v = "OPENAI_API_KEY" then some "sk-env-default" else none)
        (fun _ => none) (some ⟨"u1", none⟩)
        (some ⟨"p1", [⟨"openai", "garbled-envelope", "kid1", true⟩], none⟩)
        "openai" =
      some ⟨"sk-env-default", KeySource.system, none⟩ ∧
    ApiKeyResolver.resolveApiKey (fun _ => none)
        (fun v => if v = "OPENAI_API_KEY" then some "sk-env-default" else none)
        (fun _ => none) (some ⟨"u1", none⟩)
        (some ⟨"p1", [⟨"openai", "garbled-envelope", "kid1", true⟩], none⟩)
        "openai" ≠ none := by
  exact ⟨rfl, by decide⟩

/-- C4 as amended: when the selected project's matching active credential
fails to decrypt, the project tier yields nothing and resolution proceeds
exactly as if no project context were given — falling back to the caller's
default project and then the process-default environment credential; the
request is rejected only when every tier yields nothing. -/
theorem decrypt_failure_falls_back (decryptK : String → Option String)
    (env : String → Option String) (findProject : String → Option ProjectKeys)
    (user : Option UserInfo) (p : ProjectKeys) (provider : String)
    (entry : ApiKeyEntry)
    (hfind : p.apiKeys.find? (fun k => k.provider = provider && k.isActive) =
      some entry)
    (hdec : decryptK entry.encryptedKey = none) :
    ApiKeyResolver.resolveApiKey decryptK env findProject user (some p) provider =
      ApiKeyResolver.resolveApiKey decryptK env findProject user none provider := by
  simp [ApiKeyResolver.resolveApiKey, ApiKeyResolver.getProjectApiKey, hfind, hdec]

/-- Witness for the amended C4 at a concrete failing credential. -/
theorem decrypt_failure_falls_back_witness :
    ApiKeyResolver.resolveApiKey (fun _ => none)
        (fun v => if v = "GEMINI_API_KEY" then some "g-env" else none)
        (fun _ => none) (some ⟨"u2", none⟩)
        (some ⟨"p2", [⟨"gemini", "bad-envelope", "kid9", true⟩], none⟩) "gemini" =
      ApiKeyResolver.resolveApiKey (fun _ => none)
        (fun v => if v = "GEMINI_API_KEY" then some "g-env" else none)
        (fun _ => none) (some ⟨"u2", none⟩) none "gemini" :=
  decrypt_failure_falls_back (fun _ => none)
    (fun v => if v = "GEMINI_API_KEY" then some "g-env" else none)
    (fun _ => none) (some ⟨"u2", none⟩)
    ⟨"p2", [⟨"gemini", "bad-envelope", "kid9", true⟩], none⟩ "gemini"
    ⟨"gemini", "bad-envelope", "kid9", true⟩ (by decide) rfl

/-- Every URL-safe-base64 character is matched by the JavaScript `.`. -/
theorem urlSafe_regexDot (c : Char) (h : isUrlSafeB64 c = true) :
    isRegexDot c = true := by
  simp only [isUrlSafeB64, Bool.or_eq_true, Bool.and_eq_true, decide_eq_true_eq] at h
  have hn : 45 ≤ c.toNat ∧ c.toNat ≤ 122 := by
    rcases h with (((⟨h1, h2⟩ | ⟨h1, h2⟩) | ⟨h1, h2⟩) | h5) | h5
    · have a1 : (65 : Nat) ≤ c.toNat := h1
      have a2 : c.toNat ≤ (90 : Nat) := h2
      omega
    · have a1 : (97 : Nat) ≤ c.toNat := h1
      have a2 : c.toNat ≤ (122 : Nat) := h2
      omega
    · have a1 : (48 : Nat) ≤ c.toNat := h1
      have a2 : c.toNat ≤ (57 : Nat) := h2
      omega
    · subst h5
      constructor <;> decide
    · subst h5
      constructor <;> decide
  have g1 : ¬c = '\n' := by
    intro he
    rw [he] at hn
    exact absurd hn (by decide)
  have g2 : ¬c = '\r' := by
    intro he
    rw [he] at hn
    exact absurd hn (by decide)
  have g3 : ¬c.val = 0x2028 := by
    intro he
    have hcv : c.toNat = 8232 := congrArg UInt32.toNat he
    omega
  have g4 : ¬c.val = 0x2029 := by
    intro he
    have hcv : c.toNat = 8233 := congrArg UInt32.toNat he
    omega
  simp [isRegexDot, g1, g2, g3, g4]

/-- C8: parsing the formatted full token `pat_<hex>_<secret>` recovers
exactly the stored identifier `pat_<hex>` and the secret, for every
16-character lowercase-hex identifier part and non-empty URL-safe-base64
secret (which may itself contain `_` and `-`). -/
theorem pat_parse_format_roundtrip (h s : List Char)
    (hlen : h.length = 16) (hhex : h.all isLowerHexDigit = true)
    (hne : s ≠ []) (hs : s.all isUrlSafeB64 = true) :
    TokenValidator.parseTokenChars (TokenValidator.formatToken h s).1 =
      some ((TokenValidator.formatToken h s).2.1,
        (TokenValidator.formatToken h s).2.2) := by
  have hdot : s.all isRegexDot = true := by
    rw [List.all_eq_true] at hs ⊢
    intro x hx
    exact urlSafe_regexDot x (hs x hx)
  simp only [TokenValidator.formatToken, List.cons_append]
  simp only [TokenValidator.parseTokenChars]
  rw [List.take_left' hlen, List.drop_left' hlen]
  simp [hlen, hhex, hne, hdot]

/-- Witness for C8 at a concrete identifier and secret. -/
theorem pat_parse_format_roundtrip_witness :
    TokenValidator.parseTokenChars
        (TokenValidator.formatToken "0123456789abcdef".data "Ab9_z-Q_x-YZ".data).1 =
      some ((TokenValidator.formatToken "0123456789abcdef".data "Ab9_z-Q_x-YZ".data).2.1,
        (TokenValidator.formatToken "0123456789abcdef".data "Ab9_z-Q_x-YZ".data).2.2) :=
  pat_parse_format_roundtrip "0123456789abcdef".data "Ab9_z-Q_x-YZ".data
    (by decide) (by decide) (by decide) (by decide)

/-- C7: decrypting the envelope produced by `encryptApiKey` under the same
master key returns the original api key and metadata.  The external
AES-256-GCM cipher, the 16-byte IV, the 16-byte tag and the JSON codec
enter as hypotheses stating the library guarantees the code relies on, at
exactly the point they are used. -/
theorem encrypt_decrypt_api_key_roundtrip (g : Gcm)
    (stringify : ApiKeyPayload → String) (parse : String → Option ApiKeyPayload)
    (masterKey iv : List Nat) (keyId apiKey : String)
    (metadata : Option (List (String × String))) (now : String)
    (hiv : iv.length = 16)
    (htag : (g.enc masterKey iv
      (stringify (mkApiKeyPayload apiKey keyId metadata now))).2.length = 16)
    (hgcm : g.dec masterKey iv
        (g.enc masterKey iv
          (stringify (mkApiKeyPayload apiKey keyId metadata now))).2
        (g.enc masterKey iv
          (stringify (mkApiKeyPayload apiKey keyId metadata now))).1 =
      some (stringify (mkApiKeyPayload apiKey keyId metadata now)))
    (hjson : parse (stringify (mkApiKeyPayload apiKey keyId metadata now)) =
      some (mkApiKeyPayload apiKey keyId metadata now)) :
    EncryptionService.decryptApiKey g parse masterKey
        (EncryptionService.encryptApiKey g stringify masterKey iv keyId apiKey
          metadata now).1 =
      some (mkApiKeyPayload apiKey keyId metadata now) ∧
    (EncryptionService.decryptApiKey g parse masterKey
        (EncryptionService.encryptApiKey g stringify masterKey iv keyId apiKey
          metadata now).1).map ApiKeyPayload.key = some apiKey ∧
    (EncryptionService.decryptApiKey g parse masterKey
        (EncryptionService.encryptApiKey g stringify masterKey iv keyId apiKey
          metadata now).1).map ApiKeyPayload.metadata = some metadata := by
  have hmain : EncryptionService.decryptApiKey g parse masterKey
      (EncryptionService.encryptApiKey g stringify masterKey iv keyId apiKey
        metadata now).1 =
      some (mkApiKeyPayload apiKey keyId metadata now) := by
    unfold EncryptionService.decryptApiKey EncryptionService.encryptApiKey
      EncryptionService.decrypt EncryptionService.encrypt
    rw [List.append_assoc, List.take_left' hiv, List.drop_left' hiv,
      List.take_left' htag, List.drop_left' htag, hgcm]
    simpa using hjson
  exact ⟨hmain, by rw [hmain]; rfl, by rw [hmain]; rfl⟩

/-- Witness for C7 with a concrete cipher, codec, key and metadata. -/
theorem encrypt_decrypt_api_key_roundtrip_witness :
    EncryptionService.decryptApiKey
        ⟨fun _ _ _ => ([7, 7], List.replicate 16 0), fun _ _ _ _ => some "payload-json"⟩
        (fun _ => some (mkApiKeyPayload "sk-w" "kid-w" (some [("provider", "openai")])
          "2024-01-01"))
        [1, 2]
        (EncryptionService.encryptApiKey
          ⟨fun _ _ _ => ([7, 7], List.replicate 16 0), fun _ _ _ _ => some "payload-json"⟩
          (fun _ => "payload-json") [1, 2] (List.replicate 16 9) "kid-w" "sk-w"
          (some [("provider", "openai")]) "2024-01-01").1 =
      some (mkApiKeyPayload "sk-w" "kid-w" (some [("provider", "openai")])
        "2024-01-01") :=
  (encrypt_decrypt_api_key_roundtrip
    ⟨fun _ _ _ => ([7, 7], List.replicate 16 0), fun _ _ _ _ => some "payload-json"⟩
    (fun _ => "payload-json")
    (fun _ => some (mkApiKeyPayload "sk-w" "kid-w" (some [("provider", "openai")])
      "2024-01-01"))
    [1, 2] (List.replicate 16 9) "kid-w" "sk-w" (some [("provider", "openai")])
    "2024-01-01" (by decide) rfl rfl rfl).1

/-- C9 counterexample: a request lacking `X-AI-Guard-Provider` whose bearer
token also fails validation is rejected by `requireAuth` before the provider
check ever runs, and the error handler answers `500 UPSTREAM_ERROR` — not
`400 INVALID_REQUEST` — so not *every* provider-less request gets the 400. -/
theorem missing_provider_not_always_400 :
    runProxyChain (fun _ => (200, none, true))
        ⟨false, true, true, false, false, none, none⟩ =
      ⟨500, some "UPSTREAM_ERROR", false, false⟩ ∧
    (500 : Nat) ≠ 400 := by
  exact ⟨rfl, by decide⟩

/-- C9 as amended: every proxy request that passes authentication, the two
validator passes and rate/quota admission but lacks the
`X-AI-Guard-Provider` header is answered `400` with error type
`INVALID_REQUEST`, no upstream call is made, and no usage record is
written. -/
theorem missing_provider_rejected_400
    (forwardRest : String → Nat × Option String × Bool) (req : PipelineRequest)
    (hauth : req.authOk = true) (hsec : req.securityOk = true)
    (hschema : req.schemaOk = true) (hrate : req.rateExceeded = false)
    (hquota : req.quotaExceeded = false) (hprov : req.provider = none) :
    runProxyChain forwardRest req =
      ⟨400, some "INVALID_REQUEST", false, false⟩ := by
  simp [runProxyChain, hauth, hsec, hschema, hrate, hquota, hprov,
    UsageTracker.writesUsageRecord]

/-- Witness for the amended C9 at a concrete admitted request. -/
theorem missing_provider_rejected_400_witness :
    runProxyChain (fun _ => (200, none, true))
        ⟨true, true, true, false, false, none, some "p1"⟩ =
      ⟨400, some "INVALID_REQUEST", false, false⟩ :=
  missing_provider_rejected_400 (fun _ => (200, none, true))
    ⟨true, true, true, false, false, none, some "p1"⟩ rfl rfl rfl rfl rfl rfl

end AIGuard
